import Mathlib

/-!
Verification of the nativelink-mcp-server tool-dispatch layer.

This file gives a shallow embedding of the dispatch, validation and
transport code of the repository:

* `src/lib/utils.ts` (formatBazelrc, truncateResponse, parseApiKey),
* `src/lib/api.ts` (fetchDocumentation with its offline fallback),
* `src/tools/docs.ts` and `src/tools/config.ts` (schemas and handlers),
* the zod schemas of the remaining three tools,
* the two transport bindings of `src/index.ts`: the stdio CallTool
  handler and the HTTP server (route handling and the tools/call branch).

Modelling conventions:
* JSON numbers are modelled as integers (every input exercised by the
  claims is integral); strings are Lean strings, JS string operations are
  re-implemented over `String.data` so that they match the JS semantics
  on the character level.
* JS `undefined` is `Option.none`; a JS object is an association list and
  property access takes the last binding, as `JSON.parse` does.
* The outbound network calls and the three text-generation handlers that
  the claims treat as opaque (performance analysis, deployment config,
  watch config) are fields of an explicit `Env` record: both transport
  bindings of the source import and call the very same functions, which
  the embedding reflects by giving both dispatchers the same `Env`.
* Exceptions are `Except`; a thrown-and-caught JS error path is an
  `Except.error` consumed by the embedding of the corresponding catch.
-/

namespace NLMCP

/-- JSON values as delivered by JSON.parse, with numbers as integers. -/
inductive Json where
  | str (s : String)
  | num (n : Int)
  | jbool (b : Bool)
  | jnull
  | arr (xs : List Json)
  | obj (fields : List (String × Json))

/-- JS typeof-style name of a JSON value, as zod reports it in messages. -/
def jsTypeName : Json → String
  | .str _ => "string"
  | .num _ => "number"
  | .jbool _ => "boolean"
  | .jnull => "null"
  | .arr _ => "array"
  | .obj _ => "object"

/-- A JS object: association list of fields; raw tool arguments are one. -/
def RawArgs : Type := List (String × Json)

/-- Property access on a parsed JSON object: the last binding of a
duplicated key wins, as in JSON.parse; a missing key is undefined. -/
def jsGet (fields : List (String × Json)) (k : String) : Option Json :=
  (fields.reverse.find? (fun p => p.1 == k)).map (fun p => p.2)

/-- One zod validation issue: field path and human readable message. -/
structure ZodIssue where
  path : List String
  message : String
deriving DecidableEq

/-- JS Array.prototype.join with a separator. -/
def joinWith (sep : String) : List String → String
  | [] => ""
  | [x] => x
  | x :: y :: xs => x ++ sep ++ joinWith sep (y :: xs)

/-- JS String.prototype.trim re-implemented on the character list. -/
def trimStr (s : String) : String :=
  ⟨((s.data.dropWhile Char.isWhitespace).reverse.dropWhile Char.isWhitespace).reverse⟩

/-- JS truthiness fallback for optional strings: `v || d`. -/
def jsOrStr (v : Option String) (d : String) : String :=
  match v with
  | some s => if s = "" then d else s
  | none => d

/-- JS truthiness fallback keeping the option: `v || d` with `d` optional. -/
def jsOrStrOpt (v : Option String) (d : Option String) : Option String :=
  match v with
  | some s => if s = "" then d else some s
  | none => d

/-- JS truthiness fallback for optional numbers: `v || d` (0 is falsy). -/
def jsOrInt (v : Option Int) (d : Int) : Int :=
  match v with
  | some n => if n = 0 then d else n
  | none => d

/-- Source src/lib/utils.ts formatBazelrc:
lines.map(line to line.trim()).filter(Boolean).join(newline). -/
def formatBazelrc (lines : List String) : String :=
  joinWith "\n" ((lines.map trimStr).filter (fun l => l != ""))

/-- Source src/lib/utils.ts truncateResponse: 4 characters per token;
text unchanged when short enough, otherwise substring(0, maxChars) plus
a fixed marker. -/
def truncateResponse (text : String) (maxTokens : Int) : String :=
  let maxChars : Int := maxTokens * 4
  if (text.length : Int) ≤ maxChars then text
  else ⟨text.data.take maxChars.toNat⟩ ++ "\n\n[Response truncated for length]"

/-- Node header values: a string or an array of strings. -/
inductive HeaderValue where
  | str (s : String)
  | list (xs : List String)

/-- Request headers as an association list (last binding wins). -/
def Headers : Type := List (String × HeaderValue)

def hdrGet (hs : Headers) (k : String) : Option HeaderValue :=
  (hs.reverse.find? (fun p => p.1 == k)).map (fun p => p.2)

/-- Characters matched by the JS regex class backslash-s. -/
def jsWhitespace (c : Char) : Bool :=
  c == ' ' || c == '\t' || c == '\n' || c == '\r' ||
  c == '\u000b' || c == '\u000c' || c == '\u00a0' || c == '\u1680' ||
  ('\u2000' ≤ c && c ≤ '\u200a') || c == '\u2028' || c == '\u2029' ||
  c == '\u202f' || c == '\u205f' || c == '\u3000' || c == '\ufeff'

/-- Characters matched by the JS regex dot (no line terminators). -/
def jsDot (c : Char) : Bool :=
  c != '\n' && c != '\r' && c != '\u2028' && c != '\u2029'

/-- ASCII lower-casing, enough for the case-insensitive Bearer match. -/
def asciiLower (c : Char) : Char :=
  if 'A' ≤ c && c ≤ 'Z' then Char.ofNat (c.toNat + 32) else c

/-- Capture group of headerValue.match of the regex
caret Bearer backslash-s plus (dot plus) dollar with the i flag:
a case-insensitive Bearer prefix, one or more whitespace characters
(greedy, with backtracking), then a nonempty remainder free of line
terminators, captured. -/
def bearerCapture (s : String) : Option String :=
  let cs := s.data
  if (cs.take 6).map asciiLower == "bearer".data then
    let t := cs.drop 6
    let a := t.takeWhile jsWhitespace
    if a.isEmpty then none
    else
      let b := t.drop a.length
      if b.isEmpty then
        -- the whole tail is whitespace: backtracking leaves the last
        -- whitespace character for the capture when the dot accepts it
        match t.getLast? with
        | some c => if decide (2 ≤ t.length) && jsDot c then some ⟨[c]⟩ else none
        | none => none
      else if b.all jsDot then some ⟨b⟩ else none
  else none

/-- Key list of src/lib/utils.ts parseApiKey, in source order. -/
def apiKeyHeaderKeys : List String :=
  ["authorization", "Authorization",
   "nativelink-api-key", "Nativelink-API-Key", "NATIVELINK_API_KEY",
   "x-api-key", "X-API-Key", "X_API_KEY"]

/-- JS truthiness of a header value: empty string is falsy, any array
(even empty) is truthy. -/
def headerTruthy : HeaderValue → Bool
  | .str s => s != ""
  | .list _ => true

/-- First element extraction: Array.isArray(value) ? value[0] : value.
An empty array yields undefined. -/
def headerFirst : HeaderValue → Option String
  | .str s => some s
  | .list xs => xs.head?

/-- Loop body of parseApiKey over the remaining keys. The error case is
the TypeError thrown when an authorization header holds an empty array
(value[0] is undefined and undefined.match throws). -/
def parseApiKeyLoop (hs : Headers) : List String → Except Unit (Option String)
  | [] => .ok none
  | k :: ks =>
    match hdrGet hs k with
    | some v =>
      if headerTruthy v then
        match headerFirst v with
        | some hv =>
          if (k.data.map asciiLower) == "authorization".data then
            match bearerCapture hv with
            | some tok => .ok (some tok)
            | none => parseApiKeyLoop hs ks
          else .ok (some hv)
        | none =>
          if (k.data.map asciiLower) == "authorization".data then .error ()
          else .ok none
      else parseApiKeyLoop hs ks
    | none => parseApiKeyLoop hs ks

/-- Source src/lib/utils.ts parseApiKey: fixed key priority, the
authorization keys require a Bearer match, any other matching key is
returned directly. -/
def parseApiKey (hs : Headers) : Except Unit (Option String) :=
  parseApiKeyLoop hs apiKeyHeaderKeys

/-! ### Zod schema layer

Each tool schema of the source is compiled to a parse function from raw
arguments to `Except (List ZodIssue) Params`. Field results are combined
in shape order, concatenating the issue lists of all failing fields, as
the zod object parser does.
-/

/-- Combine two field results, collecting the issues of both. -/
def zCollect {α β : Type} :
    Except (List ZodIssue) α → Except (List ZodIssue) β →
    Except (List ZodIssue) (α × β)
  | .ok a, .ok b => .ok (a, b)
  | .ok _, .error zs => .error zs
  | .error zs, .ok _ => .error zs
  | .error z1, .error z2 => .error (z1 ++ z2)

/-- Collect a list of element results, keeping every issue in order. -/
def zCollectList {α : Type} :
    List (Except (List ZodIssue) α) → Except (List ZodIssue) (List α)
  | [] => .ok []
  | e :: es => (zCollect e (zCollectList es)).map (fun p => p.1 :: p.2)

/-- Zod message helper: options of an enum joined for error text. -/
def zEnumExpected (opts : List String) : String :=
  joinWith " | " (opts.map (fun o => "\x27" ++ o ++ "\x27"))

/-- Parse of a required z.enum field. -/
def zEnumReq (opts : List String) (field : String) (v : Option Json) :
    Except (List ZodIssue) String :=
  match v with
  | none => .error [⟨[field], "Required"⟩]
  | some (.str s) =>
    if opts.contains s then .ok s
    else .error [⟨[field], "Invalid enum value. Expected " ++
      zEnumExpected opts ++ ", received \x27" ++ s ++ "\x27"⟩]
  | some j => .error [⟨[field],
      "Expected " ++ zEnumExpected opts ++ ", received " ++ jsTypeName j⟩]

/-- Parse of a z.enum(...).optional() field. -/
def zEnumOpt (opts : List String) (field : String) (v : Option Json) :
    Except (List ZodIssue) (Option String) :=
  match v with
  | none => .ok none
  | some j => (zEnumReq opts field (some j)).map some

/-- Parse of a z.enum(...).default(d) field: undefined takes the default. -/
def zEnumDefault (opts : List String) (dflt : String) (field : String)
    (v : Option Json) : Except (List ZodIssue) String :=
  match v with
  | none => .ok dflt
  | some j => zEnumReq opts field (some j)

/-- Parse of a z.string().optional() field. -/
def zStringOpt (field : String) (v : Option Json) :
    Except (List ZodIssue) (Option String) :=
  match v with
  | none => .ok none
  | some (.str s) => .ok (some s)
  | some j => .error [⟨[field], "Expected string, received " ++ jsTypeName j⟩]

/-- Parse of a z.string().default(d) field. -/
def zStringDefault (dflt : String) (field : String) (v : Option Json) :
    Except (List ZodIssue) String :=
  match v with
  | none => .ok dflt
  | some (.str s) => .ok s
  | some j => .error [⟨[field], "Expected string, received " ++ jsTypeName j⟩]

/-- Parse of a z.boolean().default(d) field. -/
def zBoolDefault (dflt : Bool) (field : String) (v : Option Json) :
    Except (List ZodIssue) Bool :=
  match v with
  | none => .ok dflt
  | some (.jbool b) => .ok b
  | some j => .error [⟨[field], "Expected boolean, received " ++ jsTypeName j⟩]

/-- Bound checks of a z.number() chain: every failing check contributes
its own issue, in check order. -/
def zNumChecks (field : String) (lo : Option (Int × String))
    (hi : Option (Int × String)) (n : Int) : List ZodIssue :=
  (match lo with
   | some (m, msg) => if n < m then [⟨[field], msg⟩] else []
   | none => []) ++
  (match hi with
   | some (m, msg) => if m < n then [⟨[field], msg⟩] else []
   | none => [])

/-- Parse of a z.number() field with optional bounds, required form. -/
def zNumReq (field : String) (lo hi : Option (Int × String)) (v : Option Json) :
    Except (List ZodIssue) Int :=
  match v with
  | none => .error [⟨[field], "Required"⟩]
  | some (.num n) =>
    match zNumChecks field lo hi n with
    | [] => .ok n
    | zs => .error zs
  | some j => .error [⟨[field], "Expected number, received " ++ jsTypeName j⟩]

/-- Parse of a z.number() field with bounds, .optional() form. -/
def zNumOpt (field : String) (lo hi : Option (Int × String)) (v : Option Json) :
    Except (List ZodIssue) (Option Int) :=
  match v with
  | none => .ok none
  | some j => (zNumReq field lo hi (some j)).map some

/-- Parse of a z.number() field with bounds and a .default(d). -/
def zNumDefault (dflt : Int) (field : String) (lo hi : Option (Int × String))
    (v : Option Json) : Except (List ZodIssue) Int :=
  match v with
  | none => .ok dflt
  | some j => zNumReq field lo hi (some j)

/-- Parse of a z.array(z.string()).optional() field; element issues carry
the element index on their path and are all collected. -/
def zArrStringOpt (field : String) (v : Option Json) :
    Except (List ZodIssue) (Option (List String)) :=
  match v with
  | none => .ok none
  | some (.arr xs) =>
    (zCollectList ((xs.enum).map (fun p =>
      match p.2 with
      | .str s => .ok s
      | j => .error [⟨[field, toString p.1],
          "Expected string, received " ++ jsTypeName j⟩]))).map some
  | some j => .error [⟨[field], "Expected array, received " ++ jsTypeName j⟩]

/-! ### The five tool schemas (src/tools/(star).ts) -/

def projectTypes : List String := ["rust", "cpp", "java", "python", "go", "mixed"]
def docsTopics : List String :=
  ["setup", "migration", "optimization", "troubleshooting", "api"]
def platformNames : List String := ["kubernetes", "docker", "aws", "gcp", "azure"]
def scaleNames : List String := ["small", "medium", "large", "enterprise"]
def optimizationTargets : List String := ["speed", "cost", "balanced"]

/-- Validated arguments of get-bazel-config (GetBazelConfigSchema). -/
structure BazelConfigParams where
  projectType : String
  nativelinkUrl : Option String
  features : Option (List String)
deriving DecidableEq

/-- GetBazelConfigSchema.parse of src/tools/config.ts. -/
def parseBazelConfigArgs (args : RawArgs) : Except (List ZodIssue) BazelConfigParams :=
  match zCollect (zEnumReq projectTypes "projectType" (jsGet args "projectType"))
      (zCollect (zStringOpt "nativelinkUrl" (jsGet args "nativelinkUrl"))
        (zArrStringOpt "features" (jsGet args "features"))) with
  | .ok (pt, url, fs) => .ok ⟨pt, url, fs⟩
  | .error zs => .error zs

/-- Validated arguments of get-nativelink-docs (GetNativelinkDocsSchema).
The maxTokens chain is z.number().min(1000).default(5000).optional(): the
outer optional lets undefined pass through, so an absent field stays
absent and the handler applies its own fallback of 5000. -/
structure DocsParams where
  topic : String
  context : Option String
  maxTokens : Option Int
deriving DecidableEq

/-- GetNativelinkDocsSchema.parse of src/tools/docs.ts. -/
def parseDocsArgs (args : RawArgs) : Except (List ZodIssue) DocsParams :=
  match zCollect (zEnumReq docsTopics "topic" (jsGet args "topic"))
      (zCollect (zStringOpt "context" (jsGet args "context"))
        (zNumOpt "maxTokens"
          (some (1000, "Number must be greater than or equal to 1000")) none
          (jsGet args "maxTokens"))) with
  | .ok (t, c, m) => .ok ⟨t, c, m⟩
  | .error zs => .error zs

/-- Validated nested metrics object of analyze-build-performance. -/
structure MetricsParams where
  totalTime : Option Int
  cacheHitRate : Option Int
  remoteExecutionTime : Option Int
  localExecutionTime : Option Int
  networkTransferSize : Option Int
deriving DecidableEq

/-- Validated arguments of analyze-build-performance. -/
structure PerfParams where
  profileData : Option String
  metrics : Option MetricsParams
  targetOptimization : Option String
deriving DecidableEq

/-- Parse of the nested metrics z.object(...).optional() field; nested
issues carry the path metrics.(field). -/
def parseMetricsField (v : Option Json) : Except (List ZodIssue) (Option MetricsParams) :=
  match v with
  | none => .ok none
  | some (.obj fields) =>
    (match zCollect
        (zNumOpt "totalTime" none none (jsGet fields "totalTime"))
        (zCollect
          (zNumOpt "cacheHitRate"
            (some (0, "Number must be greater than or equal to 0"))
            (some (1, "Number must be less than or equal to 1"))
            (jsGet fields "cacheHitRate"))
          (zCollect
            (zNumOpt "remoteExecutionTime" none none (jsGet fields "remoteExecutionTime"))
            (zCollect
              (zNumOpt "localExecutionTime" none none (jsGet fields "localExecutionTime"))
              (zNumOpt "networkTransferSize" none none (jsGet fields "networkTransferSize"))))) with
     | .ok (a, b, c, d, e) => .ok (some ⟨a, b, c, d, e⟩)
     | .error zs => .error (zs.map (fun z => ⟨"metrics" :: z.path, z.message⟩)))
  | some j => .error [⟨["metrics"], "Expected object, received " ++ jsTypeName j⟩]

/-- AnalyzeBuildPerformanceSchema.parse of src/tools/performance.ts. -/
def parsePerfArgs (args : RawArgs) : Except (List ZodIssue) PerfParams :=
  match zCollect (zStringOpt "profileData" (jsGet args "profileData"))
      (zCollect (parseMetricsField (jsGet args "metrics"))
        (zEnumOpt optimizationTargets "targetOptimization"
          (jsGet args "targetOptimization"))) with
  | .ok (p, m, t) => .ok ⟨p, m, t⟩
  | .error zs => .error zs

/-- Validated arguments of generate-deployment-config. -/
structure DeployParams where
  platform : String
  scale : String
  features : Option (List String)
deriving DecidableEq

/-- GenerateDeploymentConfigSchema.parse of src/tools/deployment.ts. -/
def parseDeployArgs (args : RawArgs) : Except (List ZodIssue) DeployParams :=
  match zCollect (zEnumReq platformNames "platform" (jsGet args "platform"))
      (zCollect (zEnumReq scaleNames "scale" (jsGet args "scale"))
        (zArrStringOpt "features" (jsGet args "features"))) with
  | .ok (p, s, fs) => .ok ⟨p, s, fs⟩
  | .error zs => .error zs

/-- Validated arguments of setup-watch-and-build. -/
structure WatchParams where
  command : String
  targets : String
  watchPaths : Option (List String)
  excludePaths : Option (List String)
  debounceMs : Int
  useIbazel : Bool
deriving DecidableEq

/-- SetupWatchAndBuildSchema.parse of src/tools/watch.ts. -/
def parseWatchArgs (args : RawArgs) : Except (List ZodIssue) WatchParams :=
  match zCollect (zEnumDefault ["build", "test", "both"] "both" "command" (jsGet args "command"))
      (zCollect (zStringDefault "//..." "targets" (jsGet args "targets"))
        (zCollect (zArrStringOpt "watchPaths" (jsGet args "watchPaths"))
          (zCollect (zArrStringOpt "excludePaths" (jsGet args "excludePaths"))
            (zCollect (zNumDefault 1000 "debounceMs"
                (some (100, "Number must be greater than or equal to 100"))
                (some (10000, "Number must be less than or equal to 10000"))
                (jsGet args "debounceMs"))
              (zBoolDefault false "useIbazel" (jsGet args "useIbazel")))))) with
  | .ok (c, t, w, e, d, u) => .ok ⟨c, t, w, e, d, u⟩
  | .error zs => .error zs

/-! ### Offline documentation (src/lib/api.ts getOfflineDocumentation) -/

def offlineDocsSetup : String :=
  "# Nativelink Cloud Setup Guide\n\n## Quick Start with Nativelink Cloud\n\n1. **Sign up at [app.nativelink.com](https://app.nativelink.com)**\n   - Create your free account\n   - Get your API keys and personalized configuration\n\n2. **Get your .bazelrc configuration**:\n   After signing up, you\x27ll receive a personalized configuration like:\n   ```\n   build --remote_cache=grpcs://cas-tracemachina-shared.build-faster.nativelink.net\n   build --remote_header=x-nativelink-api-key=YOUR_API_KEY\n   build --bes_backend=grpcs://bes-tracemachina-shared.build-faster.nativelink.net\n   build --bes_header=x-nativelink-api-key=YOUR_BES_API_KEY\n   build --bes_results_url=https://app.nativelink.com/a/YOUR_BUILD_ID/build\n   build --remote_timeout=600\n   build --remote_executor=grpcs://scheduler-tracemachina-shared.build-faster.nativelink.net:443\n   ```\n\n3. **Add to your project**:\n   - Append the configuration to your `.bazelrc`\n   - Or create a `.bazelrc.user` file (gitignored)\n\n4. **Run your build**:\n   ```bash\n   bazel build //...\n   ```\n\n   Your builds will now use Nativelink Cloud for caching and remote execution!\n\n## Features\n- ‚ö° Instant cache hits across your team\n- üöÄ Remote execution on powerful cloud machines\n- üìä Build analytics and insights at app.nativelink.com\n- üîí Secure, isolated build environments"

def offlineDocsMigration : String :=
  "# Migration to Nativelink Cloud\n\n## From Local Builds\n\n1. **Sign up at [app.nativelink.com](https://app.nativelink.com)**\n\n2. **Baseline your current performance**:\n   ```bash\n   bazel build --profile=baseline.prof //...\n   ```\n\n3. **Add your Nativelink Cloud configuration**:\n   Get your personalized config from the dashboard and add to `.bazelrc`:\n   ```\n   # From app.nativelink.com dashboard\n   build --remote_cache=grpcs://cas-tracemachina-shared.build-faster.nativelink.net\n   build --remote_header=x-nativelink-api-key=YOUR_API_KEY\n   build --bes_backend=grpcs://bes-tracemachina-shared.build-faster.nativelink.net\n   build --bes_header=x-nativelink-api-key=YOUR_BES_API_KEY\n   ```\n\n4. **Test with read-only cache first**:\n   ```\n   build --remote_upload_local_results=false\n   ```\n\n5. **Enable full caching and remote execution**:\n   ```\n   build --remote_upload_local_results=true\n   build --remote_executor=grpcs://scheduler-tracemachina-shared.build-faster.nativelink.net:443\n   ```\n\n## From Other Remote Caches\n\nNativelink Cloud is compatible with standard Remote Execution API:\n1. Replace your cache endpoints with Nativelink Cloud URLs\n2. Update authentication to use Nativelink API keys\n3. No changes needed to BUILD files or rules"

def offlineDocsOptimization : String :=
  "# Nativelink Performance Optimization\n\n## Cache Optimization\n\n1. **Increase cache hit rate**:\n   - Use `--experimental_strict_action_env` for reproducible builds\n   - Set `--incompatible_strict_action_env=true`\n   - Configure proper toolchains\n\n2. **Network optimization**:\n   ```\n   build --remote_timeout=60\n   build --remote_retries=3\n   build --remote_max_connections=200\n   ```\n\n3. **Parallel execution**:\n   ```\n   build --jobs=auto\n   build --remote_executor=grpc://executor.nativelink.com:443\n   ```\n\n## Cost Optimization\n\n- Use `--remote_download_minimal` to reduce bandwidth\n- Enable compression: `--experimental_remote_cache_compression`\n- Set appropriate `--remote_instance_name` for isolation"

def offlineDocsTroubleshooting : String :=
  "# Nativelink Troubleshooting\n\n## Common Issues\n\n### Authentication Errors\n- Verify API key is set correctly\n- Check network connectivity\n- Ensure firewall allows gRPC traffic (port 443/50051)\n\n### Cache Misses\n- Check for non-hermetic actions\n- Verify toolchain configuration\n- Review `--execution_log_json_file` output\n\n### Slow Builds\n- Monitor with `--experimental_remote_grpc_log`\n- Check network latency to cache\n- Optimize large artifact handling\n\n### Debug Commands\n```bash\n# Enable verbose logging\nbazel build --remote_grpc_log=grpc.log //...\n\n# Profile build performance\nbazel build --profile=profile.json --generate_json_trace_profile //...\n\n# Check cache status\ngrpcurl -H \"x-nativelink-api-key: YOUR_KEY\" cache.nativelink.com:443 list\n```"

def offlineDocsApi : String :=
  "# Nativelink Cloud API Reference\n\n## Getting Your Configuration\n\n1. **Sign up at [app.nativelink.com](https://app.nativelink.com)**\n2. **Navigate to Dashboard > API Keys**\n3. **Copy your personalized .bazelrc configuration**\n\n## Your Personalized Configuration\n\nYour configuration from app.nativelink.com includes:\n\n### Cache Service\n```\nbuild --remote_cache=grpcs://cas-tracemachina-shared.build-faster.nativelink.net\nbuild --remote_header=x-nativelink-api-key=YOUR_CACHE_API_KEY\n```\n\n### Build Event Service (BES)\n```\nbuild --bes_backend=grpcs://bes-tracemachina-shared.build-faster.nativelink.net\nbuild --bes_header=x-nativelink-api-key=YOUR_BES_API_KEY\nbuild --bes_results_url=https://app.nativelink.com/a/YOUR_BUILD_ID/build\n```\n\n### Remote Execution\n```\nbuild --remote_executor=grpcs://scheduler-tracemachina-shared.build-faster.nativelink.net:443\nbuild --remote_timeout=600\n```\n\n## Optional Optimizations\n\nAdd these for better performance:\n```\nbuild --remote_download_minimal\nbuild --experimental_remote_cache_compression\nbuild --jobs=200\n```\n\n## Monitoring\n\nView your builds at: https://app.nativelink.com/builds"

/-- Record lookup docs[topic] with fallback docs.setup. -/
def getOfflineDocumentation (topic : String) (_context : Option String) : String :=
  if topic = "setup" then offlineDocsSetup
  else if topic = "migration" then offlineDocsMigration
  else if topic = "optimization" then offlineDocsOptimization
  else if topic = "troubleshooting" then offlineDocsTroubleshooting
  else if topic = "api" then offlineDocsApi
  else offlineDocsSetup

/-! ### Process configuration and API client state -/

/-- Source src/lib/types.ts NativelinkConfig (the CONFIG object). -/
structure NativelinkConfig where
  apiKey : Option String
  anthropicKey : Option String
  geminiKey : Option String
  nativelinkUrl : Option String
  debug : Bool
deriving DecidableEq

/-- State of a NativelinkAPI instance: the config it was built from and
the resolved base URL (config.nativelinkUrl || the cloud default). -/
structure ApiState where
  config : NativelinkConfig
  baseUrl : String
deriving DecidableEq

/-- Constructor new NativelinkAPI(config) of src/lib/api.ts. -/
def mkNativelinkAPI (config : NativelinkConfig) : ApiState :=
  ⟨config, jsOrStr config.nativelinkUrl "https://api.nativelink.com"⟩

/-- Outcome of one outbound fetch of the documentation endpoint: the
request can throw (network error, timeout), or deliver a response with
an ok flag, a status, and a body whose JSON decoding can itself fail. -/
inductive FetchOutcome where
  | netError
  | response (ok : Bool) (status : Int) (content : Except Unit String)

/-- External environment of one dispatch: the wall clock timestamp, the
network behaviour of the documentation endpoint, and the three handlers
that the specification treats as an external collaborator boundary
(performance analysis including its own network fallback, deployment
config generation, watch config generation). Both transport bindings of
the source import exactly the same handler functions, so both
dispatchers below receive the same environment. -/
structure Env where
  now : String
  docsFetch : ApiState → String → Option String → FetchOutcome
  perfAnalyze : ApiState → PerfParams → String
  deployGenerate : DeployParams → String
  watchGenerate : WatchParams → String

/-- Body of the try block of fetchDocumentation in src/lib/api.ts: a
failed fetch throws; a non-ok response returns the offline text on 404
and throws otherwise; an ok response returns data.content, where the
JSON decoding of the body can throw. -/
def fetchDocumentationTry (env : Env) (api : ApiState) (topic : String)
    (context : Option String) : Except Unit String :=
  match env.docsFetch api topic context with
  | .netError => .error ()
  | .response ok status content =>
    if !ok then
      if status = 404 then .ok (getOfflineDocumentation topic context)
      else .error ()
    else
      match content with
      | .ok c => .ok c
      | .error _ => .error ()

/-- Source src/lib/api.ts fetchDocumentation: the catch block turns every
thrown error into the offline documentation. -/
def fetchDocumentation (env : Env) (api : ApiState) (topic : String)
    (context : Option String) : String :=
  match fetchDocumentationTry env api topic context with
  | .ok s => s
  | .error _ => getOfflineDocumentation topic context

/-- Source src/tools/docs.ts getNativelinkDocs: fetch (with fallback)
then truncate with params.maxTokens || 5000. -/
def getNativelinkDocs (env : Env) (api : ApiState) (p : DocsParams) : String :=
  truncateResponse (fetchDocumentation env api p.topic p.context)
    (jsOrInt p.maxTokens 5000)

/-! ### get-bazel-config handler (src/tools/config.ts) -/

/-- Source getProjectSpecificConfig: configs[projectType] || []. -/
def getProjectSpecificConfig (projectType : String) : List String :=
  if projectType = "rust" then
    ["build --@rules_rust//rust/settings:pipelined_compilation=True",
     "build --@rules_rust//rust/settings:rustfmt_toml=//:rustfmt.toml"]
  else if projectType = "cpp" then
    ["build --cxxopt=-std=c++17",
     "build --host_cxxopt=-std=c++17",
     "build --copt=-fPIC"]
  else if projectType = "java" then
    ["build --java_language_version=11",
     "build --java_runtime_version=remotejdk_11",
     "build --tool_java_language_version=11",
     "build --tool_java_runtime_version=remotejdk_11"]
  else if projectType = "python" then
    ["build --action_env=PYTHONDONTWRITEBYTECODE=1",
     "test --test_env=PYTHONDONTWRITEBYTECODE=1"]
  else if projectType = "go" then
    ["build --@io_bazel_rules_go//go/config:race=false",
     "test --@io_bazel_rules_go//go/config:race=true"]
  else if projectType = "mixed" then
    ["# Configure based on your primary language",
     "# See language-specific configurations above"]
  else []

/-- Source generateBazelConfig, with new Date().toISOString() passed in
as the timestamp argument. -/
def generateBazelConfig (now : String) (params : BazelConfigParams) : String :=
  let features := params.features.getD ["remote_cache", "remote_execution", "bes"]
  let projectSpecific := getProjectSpecificConfig params.projectType
  formatBazelrc
    (["# Nativelink Cloud Configuration",
      "# Generated for " ++ params.projectType ++ " project",
      "# " ++ now,
      "",
      "# IMPORTANT: Get your personalized configuration from https://app.nativelink.com",
      "# The configuration below is a template - replace with your actual values from the dashboard",
      "",
      "# Remote Cache Configuration"]
     ++ (if features.contains "remote_cache" then
          ["build --remote_cache=grpcs://cas-tracemachina-shared.build-faster.nativelink.net",
           "build --remote_header=x-nativelink-api-key=YOUR_API_KEY_FROM_APP_NATIVELINK_COM",
           ""]
         else [])
     ++ (if features.contains "bes" then
          ["# Build Event Service (BES) Configuration",
           "build --bes_backend=grpcs://bes-tracemachina-shared.build-faster.nativelink.net",
           "build --bes_header=x-nativelink-api-key=YOUR_BES_API_KEY_FROM_APP_NATIVELINK_COM",
           "build --bes_results_url=https://app.nativelink.com/a/YOUR_BUILD_ID/build",
           ""]
         else [])
     ++ (if features.contains "remote_execution" then
          ["# Remote Execution Configuration",
           "build --remote_executor=grpcs://scheduler-tracemachina-shared.build-faster.nativelink.net:443",
           "build --remote_timeout=600",
           "build --jobs=200",
           "build --remote_download_outputs=minimal",
           ""]
         else [])
     ++ ["# Performance Optimizations",
         "build --experimental_remote_cache_compression",
         "build --experimental_remote_cache_async",
         "build --remote_max_connections=200",
         ""]
     ++ (if 0 < projectSpecific.length then
          ["# " ++ params.projectType ++ " Specific Configuration"]
          ++ projectSpecific ++ [""]
         else [])
     ++ ["# Build Reproducibility",
         "build --incompatible_strict_action_env",
         "build --action_env=BAZEL_DO_NOT_DETECT_CPP_TOOLCHAIN=1",
         ""]
     ++ (if features.contains "metrics" then
          ["# Metrics and Monitoring",
           "build --experimental_remote_grpc_log=grpc.log",
           "build --generate_json_trace_profile",
           "build --experimental_profile_include_primary_output",
           ""]
         else [])
     ++ ["# Test Configuration",
         "test --test_output=errors",
         "test --test_summary=detailed",
         ""])

/-! ### Result envelopes and the two dispatchers (src/index.ts) -/

/-- Stable error taxonomy: ErrorCode of the stdio McpError values and the
string codes of the HTTP error objects, identified. -/
inductive ErrKind where
  | invalidParams
  | methodNotFound
  | internalError
deriving DecidableEq

/-- Uniform result of one tools/call dispatch: a single text content
block on success, an error kind plus message on failure. -/
inductive ResultEnvelope where
  | success (text : String)
  | failure (kind : ErrKind) (message : String)
deriving DecidableEq

/-- Shared ZodError formatting of both bindings: Invalid parameters
prefix, then path.join(dot) colon message for every issue, joined by a
comma and space. -/
def invalidParamsMsg (zs : List ZodIssue) : String :=
  "Invalid parameters: " ++
    joinWith ", " (zs.map (fun z => joinWith "." z.path ++ ": " ++ z.message))

/-- The CallToolRequestSchema handler of createNativelinkServer (stdio
binding): the api instance is built once from the process config; an
unknown tool throws McpError(MethodNotFound, ...); a ZodError is mapped
to McpError(InvalidParams, ...) by the catch block. -/
def stdioDispatch (env : Env) (cfg : NativelinkConfig) (name : String)
    (args : RawArgs) : ResultEnvelope :=
  let api := mkNativelinkAPI cfg
  match name with
  | "get-bazel-config" =>
    (match parseBazelConfigArgs args with
     | .ok p => .success (generateBazelConfig env.now p)
     | .error zs => .failure .invalidParams (invalidParamsMsg zs))
  | "get-nativelink-docs" =>
    (match parseDocsArgs args with
     | .ok p => .success (getNativelinkDocs env api p)
     | .error zs => .failure .invalidParams (invalidParamsMsg zs))
  | "analyze-build-performance" =>
    (match parsePerfArgs args with
     | .ok p => .success (env.perfAnalyze api p)
     | .error zs => .failure .invalidParams (invalidParamsMsg zs))
  | "generate-deployment-config" =>
    (match parseDeployArgs args with
     | .ok p => .success (env.deployGenerate p)
     | .error zs => .failure .invalidParams (invalidParamsMsg zs))
  | "setup-watch-and-build" =>
    (match parseWatchArgs args with
     | .ok p => .success (env.watchGenerate p)
     | .error zs => .failure .invalidParams (invalidParamsMsg zs))
  | _ => .failure .methodNotFound ("Tool not found: " ++ name)

/-- The tools/call branch of startHttpServer, after the per-request api
instance has been built: an unknown tool throws a plain Error which the
catch block maps to the InternalError code; a ZodError is mapped to
InvalidParams with the same message format as the stdio binding. -/
def httpToolsCall (env : Env) (api : ApiState) (name : String)
    (args : RawArgs) : ResultEnvelope :=
  match name with
  | "get-bazel-config" =>
    (match parseBazelConfigArgs args with
     | .ok p => .success (generateBazelConfig env.now p)
     | .error zs => .failure .invalidParams (invalidParamsMsg zs))
  | "get-nativelink-docs" =>
    (match parseDocsArgs args with
     | .ok p => .success (getNativelinkDocs env api p)
     | .error zs => .failure .invalidParams (invalidParamsMsg zs))
  | "analyze-build-performance" =>
    (match parsePerfArgs args with
     | .ok p => .success (env.perfAnalyze api p)
     | .error zs => .failure .invalidParams (invalidParamsMsg zs))
  | "generate-deployment-config" =>
    (match parseDeployArgs args with
     | .ok p => .success (env.deployGenerate p)
     | .error zs => .failure .invalidParams (invalidParamsMsg zs))
  | "setup-watch-and-build" =>
    (match parseWatchArgs args with
     | .ok p => .success (env.watchGenerate p)
     | .error zs => .failure .invalidParams (invalidParamsMsg zs))
  | _ => .failure .internalError ("Unknown tool: " ++ name)

/-- The five registered tool names, in registration order. -/
def registeredToolNames : List String :=
  ["get-bazel-config", "get-nativelink-docs", "analyze-build-performance",
   "generate-deployment-config", "setup-watch-and-build"]

/-! ### HTTP transport binding (startHttpServer routing) -/

/-- A POST /mcp body after JSON.parse: either the parse threw, or an
object carrying the rpc method, an optional params.name and optional
params.arguments. -/
inductive McpBody where
  | malformed
  | parsed (rpcMethod : String) (toolName : Option String) (args : Option RawArgs)

/-- One inbound HTTP request. -/
structure HttpRequest where
  method : String
  url : String
  headers : Headers
  body : McpBody

/-- Structured response bodies written by the HTTP binding. errObj s is
the serialized object with a single error field holding s. -/
inductive McpOut where
  | toolsList
  | result (e : ResultEnvelope)
  | errObj (msg : String)
deriving DecidableEq

/-- Body of an HTTP response: absent, plain text, or serialized JSON. -/
inductive HttpBody where
  | empty
  | text (s : String)
  | json (o : McpOut)
deriving DecidableEq

/-- One outbound HTTP response. -/
structure HttpResponse where
  status : Nat
  headers : List (String × String)
  body : HttpBody
deriving DecidableEq

/-- The three permissive CORS headers set on every response. -/
def corsHeaders : List (String × String) :=
  [("Access-Control-Allow-Origin", "*"),
   ("Access-Control-Allow-Methods", "GET, POST, OPTIONS"),
   ("Access-Control-Allow-Headers", "*")]

/-- Per-request credential override of the tools/call branch:
the spread copy of CONFIG with apiKey replaced by parsed || CONFIG.apiKey. -/
def effectiveApiConfig (cfg : NativelinkConfig) (parsed : Option String) :
    NativelinkConfig :=
  { cfg with apiKey := jsOrStrOpt parsed cfg.apiKey }

/-- Handling of a parsed POST /mcp body: tools/list, tools/call with the
per-request api, 404 for an unknown rpc method; a thrown parseApiKey
TypeError reaches the outer catch and yields 500, as a malformed JSON
body does. -/
def handleMcpPost (env : Env) (cfg : NativelinkConfig) (hdrs : Headers) :
    McpBody → HttpResponse
  | .malformed =>
    ⟨500, corsHeaders ++ [("Content-Type", "application/json")],
     .json (.errObj "Internal server error")⟩
  | .parsed rpcMethod toolName args =>
    if rpcMethod = "tools/list" then
      ⟨200, corsHeaders ++ [("Content-Type", "application/json")],
       .json .toolsList⟩
    else if rpcMethod = "tools/call" then
      match parseApiKey hdrs with
      | .error _ =>
        ⟨500, corsHeaders ++ [("Content-Type", "application/json")],
         .json (.errObj "Internal server error")⟩
      | .ok k =>
        let api := mkNativelinkAPI (effectiveApiConfig cfg k)
        ⟨200, corsHeaders ++ [("Content-Type", "application/json")],
         .json (.result (httpToolsCall env api (toolName.getD "undefined")
           (args.getD [])))⟩
    else
      ⟨404, corsHeaders ++ [("Content-Type", "application/json")],
       .json (.errObj "Method not found")⟩

/-- Top level routing of the HTTP binding. -/
def handleHttpRequest (env : Env) (cfg : NativelinkConfig)
    (req : HttpRequest) : HttpResponse :=
  if req.method = "OPTIONS" then ⟨204, corsHeaders, .empty⟩
  else if req.url = "/ping" then
    ⟨200, corsHeaders ++ [("Content-Type", "text/plain")], .text "pong"⟩
  else if req.url = "/mcp" ∧ req.method = "POST" then
    handleMcpPost env cfg req.headers req.body
  else
    ⟨404, corsHeaders ++ [("Content-Type", "text/plain")], .text "Not found"⟩

/-- State passing form of one request: the handler never assigns to the
shared CONFIG (the credential override is a spread copy), so the process
config after the call is the config before it. -/
def handleHttpRequestSt (env : Env) (cfg : NativelinkConfig)
    (req : HttpRequest) : HttpResponse × NativelinkConfig :=
  (handleHttpRequest env cfg req, cfg)

/-- Sequential processing of several requests, threading the process
config through every call. -/
def processRequests (env : Env) (cfg : NativelinkConfig) :
    List HttpRequest → List HttpResponse × NativelinkConfig
  | [] => ([], cfg)
  | r :: rs =>
    let (resp, cfg1) := handleHttpRequestSt env cfg r
    let (rest, cfg2) := processRequests env cfg1 rs
    (resp :: rest, cfg2)

/-! ### Claim-level notions and witness fixtures -/

/-- Substring containment: pat occurs contiguously in s. -/
def containsStr (s pat : String) : Prop := pat.data <:+: s.data

/-- Failure of the outbound documentation fetch for any reason: network
error or timeout, non-2xx response, or a malformed response body. -/
def fetchFailed : FetchOutcome → Prop
  | .netError => True
  | .response ok _ content => ok = false ∨ ∀ s, content ≠ .ok s

/-- Fixture environment: unreachable network, constant opaque handlers,
a fixed representative timestamp. -/
def env0 : Env :=
  ⟨"2025-01-01T00:00:00.000Z", fun _ _ _ => .netError,
   fun _ _ => "analysis", fun _ => "deployment", fun _ => "watch"⟩

/-- Fixture process configuration without credentials. -/
def cfg0 : NativelinkConfig := ⟨none, none, none, none, false⟩

/-! ### Helper lemmas about joining, trimming and containment -/

theorem infix_of_front {α : Type} {l1 l2 : List α} (h : l1 <+: l2) :
    l1 <:+: l2 := by
  obtain ⟨t, ht⟩ := h
  exact ⟨[], t, by simpa using ht⟩

theorem joinWith_infix_of_mem (sep : String) :
    ∀ {xs : List String} {x : String}, x ∈ xs →
      x.data <:+: (joinWith sep xs).data := by
  intro xs
  induction xs with
  | nil => intro x hx; cases hx
  | cons y ys ih =>
    intro x hx
    cases ys with
    | nil =>
      rcases List.mem_cons.mp hx with rfl | h
      · exact ⟨[], [], by simp [joinWith]⟩
      · cases h
    | cons z zs =>
      rcases List.mem_cons.mp hx with rfl | h
      · exact ⟨[], sep.data ++ (joinWith sep (z :: zs)).data,
          by simp [joinWith, String.data_append]⟩
      · obtain ⟨a, b, hab⟩ := ih h
        exact ⟨y.data ++ sep.data ++ a, b,
          by simp [joinWith, String.data_append, ← hab]⟩

theorem joinWith_chars (sep : String) :
    ∀ {xs : List String} {c : Char}, c ∈ (joinWith sep xs).data →
      c ∈ sep.data ∨ ∃ x ∈ xs, c ∈ x.data := by
  intro xs
  induction xs with
  | nil => intro c hc; simp [joinWith] at hc
  | cons y ys ih =>
    intro c hc
    cases ys with
    | nil => exact Or.inr ⟨y, by simp, by simpa [joinWith] using hc⟩
    | cons z zs =>
      rw [show joinWith sep (y :: z :: zs) = y ++ sep ++ joinWith sep (z :: zs)
            from rfl, String.data_append, String.data_append] at hc
      rcases List.mem_append.mp hc with h1 | h2
      · rcases List.mem_append.mp h1 with h3 | h4
        · exact Or.inr ⟨y, by simp, h3⟩
        · exact Or.inl h4
      · rcases ih h2 with h | ⟨x, hx, hcx⟩
        · exact Or.inl h
        · exact Or.inr ⟨x, List.mem_cons_of_mem _ hx, hcx⟩

theorem trimStr_subset (s : String) : (trimStr s).data ⊆ s.data := by
  intro c hc
  have hc1 : c ∈ (s.data.dropWhile Char.isWhitespace).reverse.dropWhile Char.isWhitespace := by
    simpa [trimStr, List.mem_reverse] using hc
  have hc2 : c ∈ (s.data.dropWhile Char.isWhitespace).reverse :=
    (List.dropWhile_sublist _).subset hc1
  have hc3 : c ∈ s.data.dropWhile Char.isWhitespace := List.mem_reverse.mp hc2
  exact (List.dropWhile_sublist _).subset hc3

theorem formatBazelrc_contains {lines : List String} {x : String}
    (hmem : x ∈ lines) (htrim : trimStr x = x) (hne : x ≠ "") :
    x.data <:+: (formatBazelrc lines).data := by
  apply joinWith_infix_of_mem
  refine List.mem_filter.mpr ⟨List.mem_map.mpr ⟨x, hmem, htrim⟩, ?_⟩
  simpa using hne

theorem formatBazelrc_chars {lines : List String} {c : Char}
    (hc : c ∈ (formatBazelrc lines).data) :
    c = Char.ofNat 10 ∨ ∃ x ∈ lines, c ∈ x.data := by
  rcases joinWith_chars _ hc with h | ⟨y, hy, hcy⟩
  · left
    simpa using h
  · right
    rcases List.mem_filter.mp hy with ⟨hy2, _⟩
    rcases List.mem_map.mp hy2 with ⟨x, hx, rfl⟩
    exact ⟨x, hx, trimStr_subset _ hcy⟩

/-! ### C10 -/

/-- C10: for every string and positive maxTokens m, truncateResponse
returns the text unchanged when its length is at most 4 times m, and
otherwise returns exactly the first 4 times m characters followed by the
fixed truncation marker; in both cases the result length is bounded by
4 times m plus the marker length 33. -/
theorem truncateResponse_spec (text : String) (m : Int) (hm : 0 < m) :
    ((text.length : Int) ≤ 4 * m → truncateResponse text m = text) ∧
    (4 * m < (text.length : Int) →
      truncateResponse text m =
        String.mk (text.data.take (4 * m).toNat) ++
          "\n\n[Response truncated for length]") ∧
    (truncateResponse text m).length ≤ (4 * m).toNat + 33 := by
  have h4 : m * 4 = 4 * m := Int.mul_comm m 4
  refine ⟨?_, ?_, ?_⟩
  · intro h
    simp only [truncateResponse, h4]
    rw [if_pos h]
  · intro h
    simp only [truncateResponse, h4]
    rw [if_neg (by omega)]
  · by_cases h : (text.length : Int) ≤ 4 * m
    · simp only [truncateResponse, h4]
      rw [if_pos h]
      omega
    · simp only [truncateResponse, h4]
      rw [if_neg h]
      rw [String.length_append, String.length_mk, List.length_take]
      have hmark : ("\n\n[Response truncated for length]").length = 33 := rfl
      omega

/-- Witness for C10 at text hello and maxTokens 2. -/
theorem truncateResponse_spec_witness :
    (0 : Int) < 2 ∧ truncateResponse "hello" 2 = "hello" :=
  ⟨by decide, (truncateResponse_spec "hello" 2 (by decide)).1 (by decide)⟩

/-! ### C5 -/

/-- C5: when the headers carry an authorization value that matches the
Bearer form, credential extraction returns the Bearer token, whatever
any of the custom API-key headers hold: the authorization keys come
first in the fixed priority list and the first matching header wins. -/
theorem parseApiKey_bearer_priority (hs : Headers) (v tok : String)
    (hauth : hdrGet hs "authorization" = some (.str v))
    (hv : v ≠ "")
    (htok : bearerCapture v = some tok)
    (_hcustom : ∃ k ∈ apiKeyHeaderKeys.drop 2, (hdrGet hs k).isSome = true) :
    parseApiKey hs = .ok (some tok) := by
  show parseApiKeyLoop hs ("authorization" :: _) = .ok (some tok)
  unfold parseApiKeyLoop
  rw [hauth]
  have hb : headerTruthy (HeaderValue.str v) = true := by simp [headerTruthy, hv]
  have hlow : (("authorization" : String).data.map asciiLower ==
      ("authorization" : String).data) = true := by decide
  simp only [hb, headerFirst, hlow, if_true, htok]

/-- Witness for C5: headers holding both a Bearer authorization value
and a custom API-key header; the Bearer token is selected. -/
theorem parseApiKey_bearer_priority_witness :
    parseApiKey [("authorization", .str "Bearer tok-123"),
                 ("nativelink-api-key", .str "other-key")] = .ok (some "tok-123") :=
  parseApiKey_bearer_priority _ "Bearer tok-123" "tok-123" rfl
    (by decide) (by decide)
    ⟨"nativelink-api-key", by decide, rfl⟩

/-! ### C1 -/

/-- C1 counterexample: at the unknown tool name bogus-tool the two
transport bindings produce different result envelopes (MethodNotFound
with one message over stdio, InternalError with another over HTTP). -/
theorem dispatch_bindings_differ :
    stdioDispatch env0 cfg0 "bogus-tool" [] ≠
      httpToolsCall env0 (mkNativelinkAPI cfg0) "bogus-tool" [] := by
  decide

/-- C1 amended: for each of the five registered tool names, the stdio
CallTool handler and the HTTP tools/call branch, given the same
environment, configuration and argument object (and no per-request
credential override), produce identical result envelopes. -/
theorem dispatch_bindings_agree (env : Env) (cfg : NativelinkConfig)
    (name : String) (args : RawArgs) (h : name ∈ registeredToolNames) :
    stdioDispatch env cfg name args =
      httpToolsCall env (mkNativelinkAPI cfg) name args := by
  fin_cases h <;> rfl

/-- Witness for the amended C1 at a concrete registered call. -/
theorem dispatch_bindings_agree_witness :
    "get-bazel-config" ∈ registeredToolNames ∧
    stdioDispatch env0 cfg0 "get-bazel-config" [("projectType", Json.str "go")] =
      httpToolsCall env0 (mkNativelinkAPI cfg0) "get-bazel-config"
        [("projectType", Json.str "go")] :=
  ⟨by decide, dispatch_bindings_agree env0 cfg0 _ _ (by decide)⟩

/-! ### C2 -/

/-- C2 counterexample: for the unknown tool nonexistent the stdio binding
reports MethodNotFound but the HTTP binding reports InternalError, so the
two bindings do not both use MethodNotFound. -/
theorem unknownTool_http_not_methodNotFound :
    stdioDispatch env0 cfg0 "nonexistent" [] =
      .failure .methodNotFound "Tool not found: nonexistent" ∧
    httpToolsCall env0 (mkNativelinkAPI cfg0) "nonexistent" [] =
      .failure .internalError "Unknown tool: nonexistent" ∧
    ErrKind.internalError ≠ ErrKind.methodNotFound := by
  refine ⟨rfl, rfl, by decide⟩

/-- C2 amended: for every tool name outside the registry, the stdio
binding returns a MethodNotFound failure whose message names the tool,
while the HTTP binding returns an InternalError failure whose message
also names the tool. -/
theorem unknownTool_envelopes (env : Env) (cfg : NativelinkConfig)
    (api : ApiState) (name : String) (args : RawArgs)
    (h : name ∉ registeredToolNames) :
    stdioDispatch env cfg name args =
      .failure .methodNotFound ("Tool not found: " ++ name) ∧
    httpToolsCall env api name args =
      .failure .internalError ("Unknown tool: " ++ name) := by
  simp only [registeredToolNames, List.mem_cons, List.mem_singleton] at h
  push_neg at h
  obtain ⟨h1, h2, h3, h4, h5⟩ := h
  constructor
  · unfold stdioDispatch
    split
    all_goals first
      | rfl
      | (exfalso; simp_all)
  · unfold httpToolsCall
    split
    all_goals first
      | rfl
      | (exfalso; simp_all)

/-- Witness for the amended C2 at the unknown name mystery-tool. -/
theorem unknownTool_envelopes_witness :
    "mystery-tool" ∉ registeredToolNames ∧
    stdioDispatch env0 cfg0 "mystery-tool" [] =
      .failure .methodNotFound "Tool not found: mystery-tool" ∧
    httpToolsCall env0 (mkNativelinkAPI cfg0) "mystery-tool" [] =
      .failure .internalError "Unknown tool: mystery-tool" :=
  ⟨by decide,
   (unknownTool_envelopes env0 cfg0 (mkNativelinkAPI cfg0) "mystery-tool" []
     (by decide)).1,
   (unknownTool_envelopes env0 cfg0 (mkNativelinkAPI cfg0) "mystery-tool" []
     (by decide)).2⟩

/-! ### C4 -/

/-- C4: a tools/call whose arguments violate the docs schema in two
fields at once (a bad enum topic and an out-of-range maxTokens) yields
an InvalidParams failure carrying one issue per offending field, in
field order, formatted by the shared path colon message builder joined
with a comma and a space; the two fully concrete conjuncts pin the exact
text, including a multi-field case for the deployment tool. -/
theorem invalidParams_all_violations (env : Env) (cfg : NativelinkConfig)
    (t : String) (m : Int) (args : RawArgs)
    (hT : jsGet args "topic" = some (.str t))
    (hC : jsGet args "context" = none)
    (hM : jsGet args "maxTokens" = some (.num m))
    (ht : t ∉ docsTopics) (hm : m < 1000) :
    stdioDispatch env cfg "get-nativelink-docs" args =
      .failure .invalidParams (invalidParamsMsg
        [⟨["topic"], "Invalid enum value. Expected " ++ zEnumExpected docsTopics ++
            ", received \x27" ++ t ++ "\x27"⟩,
         ⟨["maxTokens"], "Number must be greater than or equal to 1000"⟩]) ∧
    stdioDispatch env cfg "get-nativelink-docs"
        [("topic", .str "bogus"), ("maxTokens", .num 10)] =
      .failure .invalidParams
        ("Invalid parameters: topic: Invalid enum value. Expected \x27setup\x27 | \x27migration\x27 | \x27optimization\x27 | \x27troubleshooting\x27 | \x27api\x27, received \x27bogus\x27, maxTokens: Number must be greater than or equal to 1000") ∧
    stdioDispatch env cfg "generate-deployment-config" [] =
      .failure .invalidParams "Invalid parameters: platform: Required, scale: Required" := by
  refine ⟨?_, by rfl, by rfl⟩
  have hcont : docsTopics.contains t = false := by
    by_contra hne
    exact ht (List.elem_iff.mp (by simpa using hne))
  have hparse : parseDocsArgs args = .error
      [⟨["topic"], "Invalid enum value. Expected " ++ zEnumExpected docsTopics ++
          ", received \x27" ++ t ++ "\x27"⟩,
       ⟨["maxTokens"], "Number must be greater than or equal to 1000"⟩] := by
    unfold parseDocsArgs
    rw [hT, hC, hM]
    simp [zEnumReq, zStringOpt, zNumOpt, zNumReq, zNumChecks, zCollect, Except.map, ht, hm]
  show (match parseDocsArgs args with
    | .ok p => ResultEnvelope.success (getNativelinkDocs env (mkNativelinkAPI cfg) p)
    | .error zs => .failure .invalidParams (invalidParamsMsg zs)) = _
  rw [hparse]

/-- Witness for C4 at topic bogus and maxTokens 10. -/
theorem invalidParams_all_violations_witness :
    ("bogus" ∉ docsTopics) ∧ (10 : Int) < 1000 ∧
    stdioDispatch env0 cfg0 "get-nativelink-docs"
        [("topic", .str "bogus"), ("maxTokens", .num 10)] =
      .failure .invalidParams
        ("Invalid parameters: topic: Invalid enum value. Expected \x27setup\x27 | \x27migration\x27 | \x27optimization\x27 | \x27troubleshooting\x27 | \x27api\x27, received \x27bogus\x27, maxTokens: Number must be greater than or equal to 1000") :=
  ⟨by decide, by decide,
   (invalidParams_all_violations env0 cfg0 "bogus" 10
     [("topic", .str "bogus"), ("maxTokens", .num 10)]
     rfl rfl rfl (by decide) (by decide)).2.1⟩

/-! ### C7 -/

/-- C7: the docs tool rejects every maxTokens below 1000 with an
InvalidParams failure (the handler is never reached), and a call without
maxTokens makes the handler behave exactly as if maxTokens were 5000. -/
theorem docs_maxTokens_bounds (env : Env) (cfg : NativelinkConfig)
    (api : ApiState) (args : RawArgs) (topic : String) (ctx : Option String)
    (m : Int)
    (hT : jsGet args "topic" = some (.str topic))
    (htop : topic ∈ docsTopics)
    (hC : jsGet args "context" = ctx.map Json.str)
    (hM : jsGet args "maxTokens" = some (.num m))
    (hm : m < 1000) :
    stdioDispatch env cfg "get-nativelink-docs" args =
      .failure .invalidParams
        "Invalid parameters: maxTokens: Number must be greater than or equal to 1000" ∧
    getNativelinkDocs env api ⟨topic, ctx, none⟩ =
      getNativelinkDocs env api ⟨topic, ctx, some 5000⟩ := by
  refine ⟨?_, rfl⟩
  have hcont : docsTopics.contains topic = true := List.elem_iff.mpr htop
  have hparse : parseDocsArgs args = .error
      [⟨["maxTokens"], "Number must be greater than or equal to 1000"⟩] := by
    unfold parseDocsArgs
    rw [hT, hM]
    cases ctx with
    | none =>
      rw [show Option.map Json.str none = none from rfl] at hC
      rw [hC]
      simp [zEnumReq, zStringOpt, zNumOpt, zNumReq, zNumChecks, zCollect, Except.map, htop, hm]
    | some c =>
      rw [show Option.map Json.str (some c) = some (Json.str c) from rfl] at hC
      rw [hC]
      simp [zEnumReq, zStringOpt, zNumOpt, zNumReq, zNumChecks, zCollect, Except.map, htop, hm]
  show (match parseDocsArgs args with
    | .ok p => ResultEnvelope.success (getNativelinkDocs env (mkNativelinkAPI cfg) p)
    | .error zs => .failure .invalidParams (invalidParamsMsg zs)) = _
  rw [hparse]
  rfl

/-- Witness for C7 at topic setup and maxTokens 10. -/
theorem docs_maxTokens_bounds_witness :
    ("setup" ∈ docsTopics) ∧ (10 : Int) < 1000 ∧
    stdioDispatch env0 cfg0 "get-nativelink-docs"
        [("topic", .str "setup"), ("maxTokens", .num 10)] =
      .failure .invalidParams
        "Invalid parameters: maxTokens: Number must be greater than or equal to 1000" ∧
    getNativelinkDocs env0 (mkNativelinkAPI cfg0) ⟨"setup", none, none⟩ =
      getNativelinkDocs env0 (mkNativelinkAPI cfg0) ⟨"setup", none, some 5000⟩ :=
  ⟨by decide, by decide,
   (docs_maxTokens_bounds env0 cfg0 (mkNativelinkAPI cfg0)
     [("topic", .str "setup"), ("maxTokens", .num 10)] "setup" none 10
     rfl (by decide) rfl rfl (by decide)).1,
   (docs_maxTokens_bounds env0 cfg0 (mkNativelinkAPI cfg0)
     [("topic", .str "setup"), ("maxTokens", .num 10)] "setup" none 10
     rfl (by decide) rfl rfl (by decide)).2⟩

/-! ### C3 -/

set_option maxRecDepth 40000 in
/-- C3: when the outbound documentation fetch fails for any reason, the
docs handler still succeeds with the deterministic offline text for the
validated topic, truncated per maxTokens; the dispatcher sees a success
envelope, never an error. For topic setup the text contains the offline
setup heading. -/
theorem docs_network_fallback (env : Env) (cfg : NativelinkConfig)
    (args : RawArgs) (topic : String) (ctx : Option String) (mtk : Option Int)
    (hT : jsGet args "topic" = some (.str topic))
    (htop : topic ∈ docsTopics)
    (hC : jsGet args "context" = ctx.map Json.str)
    (hM : jsGet args "maxTokens" = mtk.map Json.num)
    (hmtk : ∀ x ∈ mtk, 1000 ≤ x)
    (hfail : fetchFailed (env.docsFetch (mkNativelinkAPI cfg) topic ctx)) :
    stdioDispatch env cfg "get-nativelink-docs" args =
      .success (truncateResponse (getOfflineDocumentation topic ctx)
        (jsOrInt mtk 5000)) ∧
    (topic = "setup" →
      containsStr (truncateResponse (getOfflineDocumentation topic ctx)
        (jsOrInt mtk 5000)) "# Nativelink Cloud Setup Guide") := by
  have hparse : parseDocsArgs args = .ok ⟨topic, ctx, mtk⟩ := by
    unfold parseDocsArgs
    rw [hT, hM]
    cases ctx with
    | none =>
      rw [show Option.map Json.str none = none from rfl] at hC
      rw [hC]
      cases mtk with
      | none =>
        simp [zEnumReq, zStringOpt, zNumOpt, zCollect, htop]
      | some x =>
        have hx := hmtk x rfl
        simp [zEnumReq, zStringOpt, zNumOpt, zNumReq, zNumChecks, zCollect,
          Except.map, htop, show ¬x < 1000 by omega]
    | some c =>
      rw [show Option.map Json.str (some c) = some (Json.str c) from rfl] at hC
      rw [hC]
      cases mtk with
      | none =>
        simp [zEnumReq, zStringOpt, zNumOpt, zCollect, htop]
      | some x =>
        have hx := hmtk x rfl
        simp [zEnumReq, zStringOpt, zNumOpt, zNumReq, zNumChecks, zCollect,
          Except.map, htop, show ¬x < 1000 by omega]
  have hfetch : fetchDocumentation env (mkNativelinkAPI cfg) topic ctx =
      getOfflineDocumentation topic ctx := by
    unfold fetchDocumentation fetchDocumentationTry
    rcases houtcome : env.docsFetch (mkNativelinkAPI cfg) topic ctx with
      _ | ⟨ok, status, content⟩
    · rfl
    · rw [houtcome] at hfail
      rcases hfail with hok | hcontent
      · subst hok
        by_cases h404 : status = 404 <;> simp [h404]
      · cases ok
        · by_cases h404 : status = 404 <;> simp [h404]
        · cases content with
          | ok c => exact absurd rfl (hcontent c)
          | error e => simp
  constructor
  · show (match parseDocsArgs args with
      | .ok p => ResultEnvelope.success (getNativelinkDocs env (mkNativelinkAPI cfg) p)
      | .error zs => .failure .invalidParams (invalidParamsMsg zs)) = _
    rw [hparse]
    show ResultEnvelope.success (getNativelinkDocs env (mkNativelinkAPI cfg)
      ⟨topic, ctx, mtk⟩) = _
    unfold getNativelinkDocs
    rw [hfetch]
  · intro hsetup
    subst hsetup
    have heff : 1000 ≤ jsOrInt mtk 5000 := by
      cases mtk with
      | none => simp [jsOrInt]
      | some x =>
        have hx := hmtk x rfl
        simp [jsOrInt, show x ≠ 0 by omega]
        omega
    have hofl : getOfflineDocumentation "setup" ctx = offlineDocsSetup := rfl
    rw [hofl]
    have hlen : offlineDocsSetup.length = 1314 := by decide
    have hshort : truncateResponse offlineDocsSetup (jsOrInt mtk 5000) =
        offlineDocsSetup := by
      unfold truncateResponse
      rw [if_pos (by rw [hlen]; omega)]
    rw [hshort]
    exact infix_of_front (by decide)

set_option maxRecDepth 40000 in
/-- Witness for C3: topic setup, no context, no maxTokens, network
unreachable. -/
theorem docs_network_fallback_witness :
    stdioDispatch env0 cfg0 "get-nativelink-docs" [("topic", .str "setup")] =
      .success (truncateResponse (getOfflineDocumentation "setup" none)
        (jsOrInt none 5000)) ∧
    containsStr (truncateResponse (getOfflineDocumentation "setup" none)
      (jsOrInt none 5000)) "# Nativelink Cloud Setup Guide" :=
  ⟨(docs_network_fallback env0 cfg0 [("topic", .str "setup")] "setup" none none
      rfl (by decide) rfl rfl (by simp) trivial).1,
   (docs_network_fallback env0 cfg0 [("topic", .str "setup")] "setup" none none
      rfl (by decide) rfl rfl (by simp) trivial).2 rfl⟩

/-! ### C6 -/

/-- C6: the HTTP binding answers every OPTIONS request with 204, CORS
headers and no body; GET /ping with 200 pong; a POST /mcp tools/call
with 200 carrying the result envelope in the body whatever the tool
outcome; and any other route with 404. -/
theorem http_routes (env : Env) (cfg : NativelinkConfig) (req : HttpRequest) :
    (req.method = "OPTIONS" →
      handleHttpRequest env cfg req = ⟨204, corsHeaders, .empty⟩) ∧
    (req.method = "GET" → req.url = "/ping" →
      handleHttpRequest env cfg req =
        ⟨200, corsHeaders ++ [("Content-Type", "text/plain")], .text "pong"⟩) ∧
    (∀ tn a k, req.method = "POST" → req.url = "/mcp" →
      req.body = .parsed "tools/call" tn a →
      parseApiKey req.headers = .ok k →
      handleHttpRequest env cfg req =
        ⟨200, corsHeaders ++ [("Content-Type", "application/json")],
         .json (.result (httpToolsCall env
           (mkNativelinkAPI (effectiveApiConfig cfg k))
           (tn.getD "undefined") (a.getD [])))⟩) ∧
    (req.method ≠ "OPTIONS" → req.url ≠ "/ping" →
      ¬(req.url = "/mcp" ∧ req.method = "POST") →
      handleHttpRequest env cfg req =
        ⟨404, corsHeaders ++ [("Content-Type", "text/plain")], .text "Not found"⟩) := by
  refine ⟨?_, ?_, ?_, ?_⟩
  · intro h
    simp [handleHttpRequest, h]
  · intro h1 h2
    simp [handleHttpRequest, h1, h2]
  · intro tn a k h1 h2 hbody hk
    simp only [handleHttpRequest, h1, h2]
    norm_num
    rw [hbody]
    simp [handleMcpPost, hk]
  · intro h1 h2 h3
    simp only [handleHttpRequest]
    rw [if_neg h1, if_neg h2, if_neg h3]

/-- Witness for C6 on four concrete requests. -/
theorem http_routes_witness :
    handleHttpRequest env0 cfg0 ⟨"OPTIONS", "/mcp", [], .malformed⟩ =
      ⟨204, corsHeaders, .empty⟩ ∧
    handleHttpRequest env0 cfg0 ⟨"GET", "/ping", [], .malformed⟩ =
      ⟨200, corsHeaders ++ [("Content-Type", "text/plain")], .text "pong"⟩ ∧
    handleHttpRequest env0 cfg0
        ⟨"POST", "/mcp", [], .parsed "tools/call" (some "nope") none⟩ =
      ⟨200, corsHeaders ++ [("Content-Type", "application/json")],
       .json (.result (httpToolsCall env0
         (mkNativelinkAPI (effectiveApiConfig cfg0 none)) "nope" []))⟩ ∧
    handleHttpRequest env0 cfg0 ⟨"GET", "/other", [], .malformed⟩ =
      ⟨404, corsHeaders ++ [("Content-Type", "text/plain")], .text "Not found"⟩ :=
  ⟨(http_routes env0 cfg0 _).1 rfl,
   (http_routes env0 cfg0 _).2.1 rfl rfl,
   (http_routes env0 cfg0 _).2.2.1 (some "nope") none none rfl rfl rfl rfl,
   (http_routes env0 cfg0 _).2.2.2 (by decide) (by decide) (by decide)⟩

/-! ### C9 -/

/-- C9: a per-request API key is local to its call: processing requests
leaves the shared config unchanged (its apiKey still holds the startup
value), and a subsequent tools/call without credential headers builds
its api from the startup config itself. -/
theorem perRequest_credential_local (env : Env) (cfg : NativelinkConfig)
    (r1 r2 : HttpRequest)
    (hr2 : parseApiKey r2.headers = .ok none) :
    (processRequests env cfg [r1, r2]).2 = cfg ∧
    ((processRequests env cfg [r1, r2]).2).apiKey = cfg.apiKey ∧
    (processRequests env cfg [r1, r2]).1 =
      [handleHttpRequest env cfg r1, handleHttpRequest env cfg r2] ∧
    (∀ tn a, handleMcpPost env cfg r2.headers (.parsed "tools/call" tn a) =
      ⟨200, corsHeaders ++ [("Content-Type", "application/json")],
       .json (.result (httpToolsCall env (mkNativelinkAPI cfg)
         (tn.getD "undefined") (a.getD [])))⟩) := by
  refine ⟨rfl, rfl, rfl, ?_⟩
  intro tn a
  simp [handleMcpPost, hr2, effectiveApiConfig, jsOrStrOpt]

/-- Witness for C9: a first request with a Bearer override followed by a
second request without credentials. -/
theorem perRequest_credential_local_witness :
    (processRequests env0 cfg0
      [⟨"POST", "/mcp", [("authorization", .str "Bearer abc")],
        .parsed "tools/call" (some "get-bazel-config")
          (some [("projectType", .str "go")])⟩,
       ⟨"POST", "/mcp", [], .parsed "tools/call" (some "get-bazel-config")
          (some [("projectType", .str "go")])⟩]).2 = cfg0 ∧
    handleMcpPost env0 cfg0 []
        (.parsed "tools/call" (some "get-bazel-config")
          (some [("projectType", .str "go")])) =
      ⟨200, corsHeaders ++ [("Content-Type", "application/json")],
       .json (.result (httpToolsCall env0 (mkNativelinkAPI cfg0)
         "get-bazel-config" [("projectType", .str "go")]))⟩ :=
  ⟨(perRequest_credential_local env0 cfg0 _
      ⟨"POST", "/mcp", [], .parsed "tools/call" (some "get-bazel-config")
        (some [("projectType", .str "go")])⟩ rfl).1,
   (perRequest_credential_local env0 cfg0
      ⟨"POST", "/mcp", [("authorization", .str "Bearer abc")],
        .parsed "tools/call" (some "get-bazel-config")
          (some [("projectType", .str "go")])⟩
      ⟨"POST", "/mcp", [], .parsed "tools/call" (some "get-bazel-config")
        (some [("projectType", .str "go")])⟩ rfl).2.2.2
     (some "get-bazel-config") (some [("projectType", .str "go")])⟩

/-! ### C8 -/

theorem infix_cons_elim {α : Type} {p b : List α} {c : α}
    (hc : c ∉ p) (h : p <:+: c :: b) : p <:+: b := by
  obtain ⟨s, t, hst⟩ := h
  cases s with
  | nil =>
    cases p with
    | nil => exact ⟨[], b, rfl⟩
    | cons x q =>
      rw [List.nil_append, List.cons_append] at hst
      obtain ⟨hxc, -⟩ := List.cons.inj hst
      exact absurd (hxc ▸ List.mem_cons_self x q) hc
  | cons y s2 =>
    rw [List.cons_append, List.cons_append] at hst
    obtain ⟨-, hrest⟩ := List.cons.inj hst
    exact ⟨s2, t, hrest⟩

theorem prefix_append_cons_elim {α : Type} {p b : List α} {c : α}
    (hc : c ∉ p) : ∀ {a : List α}, p <+: a ++ c :: b → p <+: a := by
  intro a
  induction a generalizing p with
  | nil =>
    intro h
    cases p with
    | nil => exact List.nil_prefix
    | cons x q =>
      obtain ⟨t, ht⟩ := h
      rw [List.nil_append, List.cons_append] at ht
      obtain ⟨hxc, -⟩ := List.cons.inj ht
      exact absurd (hxc ▸ List.mem_cons_self x q) hc
  | cons z a2 ih =>
    intro h
    cases p with
    | nil => exact List.nil_prefix
    | cons x q =>
      obtain ⟨t, ht⟩ := h
      rw [List.cons_append, List.cons_append] at ht
      obtain ⟨hxz, hrest⟩ := List.cons.inj ht
      have hq : q <+: a2 :=
        ih (fun hcq => hc (List.mem_cons_of_mem x hcq)) ⟨t, hrest⟩
      obtain ⟨t2, ht2⟩ := hq
      exact ⟨t2, by rw [List.cons_append, hxz, ht2]⟩

theorem infix_append_cons_split {α : Type} {p b : List α} {c : α}
    (hc : c ∉ p) : ∀ {a : List α}, p <:+: a ++ c :: b →
      p <:+: a ∨ p <:+: b := by
  intro a
  induction a with
  | nil => exact fun h => Or.inr (infix_cons_elim hc h)
  | cons z a2 ih =>
    intro h
    obtain ⟨s, t, hst⟩ := h
    cases s with
    | nil =>
      rw [List.nil_append] at hst
      have hpre : p <+: (z :: a2) ++ c :: b := ⟨t, by simpa using hst⟩
      exact Or.inl (prefix_append_cons_elim hc hpre).isInfix
    | cons y s2 =>
      rw [List.cons_append, List.cons_append] at hst
      obtain ⟨-, hrest⟩ := List.cons.inj hst
      rcases ih ⟨s2, t, hrest⟩ with h1 | h2
      · exact Or.inl (List.infix_cons h1)
      · exact Or.inr h2

/-- A pattern free of newlines that occurs in a newline-join of lines
occurs inside one of the lines. -/
theorem infix_joinWith_nl {pat : String} (hne : pat.data ≠ [])
    (hnl : Char.ofNat 10 ∉ pat.data) :
    ∀ {xs : List String}, pat.data <:+: (joinWith "\n" xs).data →
      ∃ x ∈ xs, pat.data <:+: x.data := by
  intro xs
  induction xs with
  | nil =>
    intro h
    exact absurd (List.sublist_nil.mp h.sublist) hne
  | cons y ys ih =>
    intro h
    cases ys with
    | nil => exact ⟨y, by simp, by simpa [joinWith] using h⟩
    | cons z zs =>
      rw [show joinWith "\n" (y :: z :: zs) = y ++ "\n" ++ joinWith "\n" (z :: zs)
            from rfl, String.data_append, String.data_append] at h
      rw [show ("\n" : String).data = [Char.ofNat 10] from rfl, List.append_assoc,
        List.singleton_append] at h
      rcases infix_append_cons_split hnl h with h1 | h2
      · exact ⟨y, by simp, h1⟩
      · obtain ⟨x, hx, hpx⟩ := ih h2
        exact ⟨x, List.mem_cons_of_mem _ hx, hpx⟩

/-- A newline-free pattern inside a formatted bazelrc occurs inside the
trim of one of its source lines. -/
theorem formatBazelrc_infix_line {lines : List String} {pat : String}
    (hne : pat.data ≠ []) (hnl : Char.ofNat 10 ∉ pat.data)
    (h : pat.data <:+: (formatBazelrc lines).data) :
    ∃ x ∈ lines, pat.data <:+: (trimStr x).data := by
  obtain ⟨y, hy, hpy⟩ := infix_joinWith_nl hne hnl h
  rcases List.mem_filter.mp hy with ⟨hy2, -⟩
  rcases List.mem_map.mp hy2 with ⟨x, hx, rfl⟩
  exact ⟨x, hx, hpy⟩

set_option maxRecDepth 40000 in
/-- C8: a build-config call with projectType rust and features
remote_cache succeeds, and the generated text contains a remote-cache
directive and a rust-specific rules_rust settings line, but no
java_language_version line; the hypothesis on the timestamp holds of
every ISO timestamp, which contains no letter j. -/
theorem buildConfig_rust_remoteCache (env : Env) (cfg : NativelinkConfig)
    (args : RawArgs)
    (hpt : jsGet args "projectType" = some (.str "rust"))
    (hurl : jsGet args "nativelinkUrl" = none)
    (hfeat : jsGet args "features" = some (.arr [.str "remote_cache"]))
    (hnoj : Char.ofNat 106 ∉ env.now.data) :
    stdioDispatch env cfg "get-bazel-config" args =
      .success (generateBazelConfig env.now ⟨"rust", none, some ["remote_cache"]⟩) ∧
    containsStr (generateBazelConfig env.now ⟨"rust", none, some ["remote_cache"]⟩)
      "build --remote_cache=" ∧
    containsStr (generateBazelConfig env.now ⟨"rust", none, some ["remote_cache"]⟩)
      "@rules_rust" ∧
    ¬ containsStr (generateBazelConfig env.now ⟨"rust", none, some ["remote_cache"]⟩)
      "java_language_version" := by
  have hparse : parseBazelConfigArgs args = .ok ⟨"rust", none, some ["remote_cache"]⟩ := by
    unfold parseBazelConfigArgs
    rw [hpt, hurl, hfeat]
    rfl
  have hconfig : generateBazelConfig env.now ⟨"rust", none, some ["remote_cache"]⟩ =
      formatBazelrc
        ["# Nativelink Cloud Configuration",
         "# Generated for rust project",
         "# " ++ env.now,
         "",
         "# IMPORTANT: Get your personalized configuration from https://app.nativelink.com",
         "# The configuration below is a template - replace with your actual values from the dashboard",
         "",
         "# Remote Cache Configuration",
         "build --remote_cache=grpcs://cas-tracemachina-shared.build-faster.nativelink.net",
         "build --remote_header=x-nativelink-api-key=YOUR_API_KEY_FROM_APP_NATIVELINK_COM",
         "",
         "# Performance Optimizations",
         "build --experimental_remote_cache_compression",
         "build --experimental_remote_cache_async",
         "build --remote_max_connections=200",
         "",
         "# rust Specific Configuration",
         "build --@rules_rust//rust/settings:pipelined_compilation=True",
         "build --@rules_rust//rust/settings:rustfmt_toml=//:rustfmt.toml",
         "",
         "# Build Reproducibility",
         "build --incompatible_strict_action_env",
         "build --action_env=BAZEL_DO_NOT_DETECT_CPP_TOOLCHAIN=1",
         "",
         "# Test Configuration",
         "test --test_output=errors",
         "test --test_summary=detailed",
         ""] := rfl
  refine ⟨?_, ?_, ?_, ?_⟩
  · show (match parseBazelConfigArgs args with
      | .ok p => ResultEnvelope.success (generateBazelConfig env.now p)
      | .error zs => .failure .invalidParams (invalidParamsMsg zs)) = _
    rw [hparse]
  · rw [hconfig]
    have h1 : ("build --remote_cache=" : String).data <+:
        ("build --remote_cache=grpcs://cas-tracemachina-shared.build-faster.nativelink.net" : String).data := by
      decide
    have h2 : ("build --remote_cache=grpcs://cas-tracemachina-shared.build-faster.nativelink.net" : String).data <:+:
        (formatBazelrc
          ["# Nativelink Cloud Configuration",
           "# Generated for rust project",
           "# " ++ env.now,
           "",
           "# IMPORTANT: Get your personalized configuration from https://app.nativelink.com",
           "# The configuration below is a template - replace with your actual values from the dashboard",
           "",
           "# Remote Cache Configuration",
           "build --remote_cache=grpcs://cas-tracemachina-shared.build-faster.nativelink.net",
           "build --remote_header=x-nativelink-api-key=YOUR_API_KEY_FROM_APP_NATIVELINK_COM",
           "",
           "# Performance Optimizations",
           "build --experimental_remote_cache_compression",
           "build --experimental_remote_cache_async",
           "build --remote_max_connections=200",
           "",
           "# rust Specific Configuration",
           "build --@rules_rust//rust/settings:pipelined_compilation=True",
           "build --@rules_rust//rust/settings:rustfmt_toml=//:rustfmt.toml",
           "",
           "# Build Reproducibility",
           "build --incompatible_strict_action_env",
           "build --action_env=BAZEL_DO_NOT_DETECT_CPP_TOOLCHAIN=1",
           "",
           "# Test Configuration",
           "test --test_output=errors",
           "test --test_summary=detailed",
           ""]).data :=
      formatBazelrc_contains (by simp) (by decide) (by decide)
    exact List.IsInfix.trans (infix_of_front h1) h2
  · rw [hconfig]
    have h1 : ("@rules_rust" : String).data <:+:
        ("build --@rules_rust//rust/settings:pipelined_compilation=True" : String).data := by
      decide
    have h2 : ("build --@rules_rust//rust/settings:pipelined_compilation=True" : String).data <:+:
        (formatBazelrc
          ["# Nativelink Cloud Configuration",
           "# Generated for rust project",
           "# " ++ env.now,
           "",
           "# IMPORTANT: Get your personalized configuration from https://app.nativelink.com",
           "# The configuration below is a template - replace with your actual values from the dashboard",
           "",
           "# Remote Cache Configuration",
           "build --remote_cache=grpcs://cas-tracemachina-shared.build-faster.nativelink.net",
           "build --remote_header=x-nativelink-api-key=YOUR_API_KEY_FROM_APP_NATIVELINK_COM",
           "",
           "# Performance Optimizations",
           "build --experimental_remote_cache_compression",
           "build --experimental_remote_cache_async",
           "build --remote_max_connections=200",
           "",
           "# rust Specific Configuration",
           "build --@rules_rust//rust/settings:pipelined_compilation=True",
           "build --@rules_rust//rust/settings:rustfmt_toml=//:rustfmt.toml",
           "",
           "# Build Reproducibility",
           "build --incompatible_strict_action_env",
           "build --action_env=BAZEL_DO_NOT_DETECT_CPP_TOOLCHAIN=1",
           "",
           "# Test Configuration",
           "test --test_output=errors",
           "test --test_summary=detailed",
           ""]).data :=
      formatBazelrc_contains (by simp) (by decide) (by decide)
    exact List.IsInfix.trans h1 h2
  · intro hcon
    rw [hconfig] at hcon
    obtain ⟨x, hx, hpx⟩ :=
      formatBazelrc_infix_line (by decide) (by decide) hcon
    simp only [List.mem_cons, List.not_mem_nil, or_false] at hx
    rcases hx with rfl|rfl|rfl|rfl|rfl|rfl|rfl|rfl|rfl|rfl|rfl|rfl|rfl|rfl|
      rfl|rfl|rfl|rfl|rfl|rfl|rfl|rfl|rfl|rfl|rfl|rfl|rfl|rfl
    all_goals first
      | exact absurd hpx (by decide)
      | (have hj : Char.ofNat 106 ∈ ("java_language_version" : String).data := by decide
         have hjx := trimStr_subset _ (hpx.subset hj)
         rw [String.data_append] at hjx
         rcases List.mem_append.mp hjx with hja | hjb
         · exact absurd hja (by decide)
         · exact hnoj hjb)

/-- Witness for C8 at the fixture environment and concrete arguments. -/
theorem buildConfig_rust_remoteCache_witness :
    stdioDispatch env0 cfg0 "get-bazel-config"
        [("projectType", .str "rust"), ("features", .arr [.str "remote_cache"])] =
      .success (generateBazelConfig env0.now ⟨"rust", none, some ["remote_cache"]⟩) ∧
    containsStr (generateBazelConfig env0.now ⟨"rust", none, some ["remote_cache"]⟩)
      "build --remote_cache=" ∧
    containsStr (generateBazelConfig env0.now ⟨"rust", none, some ["remote_cache"]⟩)
      "@rules_rust" ∧
    ¬ containsStr (generateBazelConfig env0.now ⟨"rust", none, some ["remote_cache"]⟩)
      "java_language_version" :=
  buildConfig_rust_remoteCache env0 cfg0
    [("projectType", .str "rust"), ("features", .arr [.str "remote_cache"])]
    rfl rfl rfl (by decide)

end NLMCP
